import Mathlib

/-!
Shallow embedding of the DomainHub admin server (hassan005004/combine_web_admin):
the drizzle schema (shared/schema.ts, the version embedded alongside
src/server/routes.ts), the storage layer (src/server/storage.ts, class
DatabaseStorage), the auth helpers (auth.ts: isAuthenticated, loginUser,
initializeDefaultUser) and the Express route layer (src/server/routes.ts,
registerRoutes).

Modelling conventions:
* Postgres tables are lists of row structures inside a `DB` state; `serial`
  primary keys are modelled with explicit next-id counters.
* Declared schema constraints are enforced by the storage operations exactly
  as Postgres enforces them: UNIQUE (users.email, domains.name) and PRIMARY KEY
  make a violating INSERT/UPDATE return `Except.error`; the foreign keys
  pages.domain_id → domains.id, domain_settings.domain_id → domains.id and
  seo_settings.domain_id → domains.id carry no ON DELETE action, so deleting a
  referenced domain errors; faqs.page_id → pages.id is declared
  `onDelete: "cascade"`, so deleting a page removes its faqs.
* jsonb values are a small `Json` inductive; a JSON field that is absent and a
  field that is explicitly null are both modelled as `none` (no claim observes
  the difference).
* bcrypt, `new Date()` and `gen_random_uuid()` are external effects, passed in
  through an `Env` record (`bcryptHash`, `bcryptCompare`, `now`, `freshUuid`).
* Each Express handler is a function `DB → ... → HResult` returning the HTTP
  response, the new database state, the new session content and the number of
  storage-layer method invocations the handler performed.
-/

/-- JSON values, used for request bodies, jsonb columns and response bodies. -/
inductive Json where
  | null : Json
  | bool : Bool → Json
  | num : Int → Json
  | str : String → Json
  | arr : List Json → Json
  | obj : List (String × Json) → Json

namespace Json

/-- Field lookup on a JSON object (first binding wins, as in a JS object). -/
def getField : Json → String → Option Json
  | .obj fs, k => fs.lookup k
  | _, _ => none

/-- `setField j k v` models the JS spread `{ ...j, k: v }`: the binding for
`k` is overwritten.  Spreading a non-object yields an object holding only the
new binding (enumerable own properties of primitives are irrelevant to the
named-field validators). -/
def setField : Json → String → Json → Json
  | .obj fs, k, v => .obj ((fs.filter (fun p => p.1 ≠ k)) ++ [(k, v)])
  | _, k, v => .obj [(k, v)]

def isObj : Json → Bool
  | .obj _ => true
  | _ => false

def asStr : Json → Option String
  | .str s => some s
  | _ => none

def asBool : Json → Option Bool
  | .bool b => some b
  | _ => none

/-- Integral JSON numbers that fit a Postgres id column in this model. -/
def asNat : Json → Option Nat
  | .num n => if 0 ≤ n then some n.toNat else none
  | _ => none

end Json

/-- A row of the `users` table. -/
structure UserRow where
  id : String
  email : String
  password : String
  firstName : Option String
  lastName : Option String
  profileImageUrl : Option String
  role : Option String
  isActive : Option Bool
  createdAt : Nat
  updatedAt : Nat
deriving DecidableEq, Repr

/-- A row of the `domains` table. -/
structure DomainRow where
  id : Nat
  name : String
  title : Option String
  description : Option String
  footerDescription : Option String
  contactEmail : Option String
  contactPhone : Option String
  contactAddress : Option String
  isActive : Option Bool
  createdAt : Nat
  updatedAt : Nat
deriving DecidableEq, Repr

/-- A row of the `pages` table. -/
structure PageRow where
  id : Nat
  domainId : Nat
  name : String
  title : Option String
  subtitle : Option String
  sectionsJson : Json
  metaTitle : Option String
  metaDescription : Option String
  status : Option String
  faqsEnabled : Option Bool
  createdAt : Nat
  updatedAt : Nat

/-- A row of the `domain_settings` table. -/
structure DomainSettingsRow where
  id : Nat
  domainId : Nat
  visibleSections : Json
  navigationSettings : Json
  footerDescription : Option String
  contactInfo : Json
  createdAt : Nat
  updatedAt : Nat

/-- A row of the `seo_settings` table. -/
structure SeoSettingsRow where
  id : Nat
  domainId : Nat
  websiteTitle : Option String
  metaDescription : Option String
  metaKeywords : Option String
  canonicalUrl : Option String
  googleAnalyticsId : Option String
  googleAdsenseConfig : Json
  ogTitle : Option String
  ogDescription : Option String
  ogImageUrl : Option String
  twitterCardType : Option String
  createdAt : Nat
  updatedAt : Nat

/-- A row of the `faqs` table. -/
structure FaqRow where
  id : Nat
  pageId : Nat
  question : String
  answer : String
  sortOrder : Nat
  isActive : Bool
  createdAt : Nat
  updatedAt : Nat
deriving DecidableEq, Repr

/-- The database state: one list per table plus the serial sequences. -/
structure DB where
  users : List UserRow
  domains : List DomainRow
  pages : List PageRow
  domainSettings : List DomainSettingsRow
  seoSettings : List SeoSettingsRow
  faqs : List FaqRow
  nextDomainId : Nat
  nextPageId : Nat
  nextDomainSettingsId : Nat
  nextSeoSettingsId : Nat
  nextFaqId : Nat

/-- The empty database, sequences starting at 1 as Postgres serials do. -/
def DB.empty : DB :=
  { users := [], domains := [], pages := [], domainSettings := [],
    seoSettings := [], faqs := [],
    nextDomainId := 1, nextPageId := 1, nextDomainSettingsId := 1,
    nextSeoSettingsId := 1, nextFaqId := 1 }

/-- External effects a request handler may consume: the clock (`new Date()`),
the uuid generator (`gen_random_uuid()`) and the bcrypt primitives. -/
structure Env where
  now : Nat
  freshUuid : String
  bcryptHash : String → String
  bcryptCompare : String → String → Bool

/-! ## Validated payloads (drizzle-zod insert schemas)

`createInsertSchema(table).omit({id, createdAt, updatedAt})` produces a zod
object validator: a column that is `notNull` and has no default is a required
field; nullable columns and columns with defaults are optional.  Parsing fails
on a non-object body, a missing required field or a present field of the wrong
JSON type; unknown keys are stripped.  `Option` fields collapse "absent" and
"null" (see the header). -/

/-- Payload accepted by `insertDomainSchema`. -/
structure InsertDomain where
  name : String
  title : Option String
  description : Option String
  footerDescription : Option String
  contactEmail : Option String
  contactPhone : Option String
  contactAddress : Option String
  isActive : Option Bool

/-- Payload accepted by `insertDomainSchema.partial()`. -/
structure DomainPatch where
  name : Option String
  title : Option String
  description : Option String
  footerDescription : Option String
  contactEmail : Option String
  contactPhone : Option String
  contactAddress : Option String
  isActive : Option Bool

/-- Payload accepted by `insertUserSchema`. -/
structure InsertUser where
  email : String
  password : String
  firstName : Option String
  lastName : Option String
  profileImageUrl : Option String
  role : Option String
  isActive : Option Bool

/-- Payload accepted by `insertPageSchema` (the route always merges the
`domainId` path parameter into the body before parsing). -/
structure InsertPage where
  domainId : Nat
  name : String
  title : Option String
  subtitle : Option String
  sectionsJson : Option Json
  metaTitle : Option String
  metaDescription : Option String
  status : Option String
  faqsEnabled : Option Bool

/-- Payload accepted by `insertPageSchema.partial()`. -/
structure PagePatch where
  domainId : Option Nat
  name : Option String
  title : Option String
  subtitle : Option String
  sectionsJson : Option Json
  metaTitle : Option String
  metaDescription : Option String
  status : Option String
  faqsEnabled : Option Bool

/-- Payload accepted by `insertDomainSettingsSchema`. -/
structure InsertDomainSettings where
  domainId : Nat
  visibleSections : Option Json
  navigationSettings : Option Json
  footerDescription : Option String
  contactInfo : Option Json

/-- Payload accepted by `insertSeoSettingsSchema`. -/
structure InsertSeoSettings where
  domainId : Nat
  websiteTitle : Option String
  metaDescription : Option String
  metaKeywords : Option String
  canonicalUrl : Option String
  googleAnalyticsId : Option String
  googleAdsenseConfig : Option Json
  ogTitle : Option String
  ogDescription : Option String
  ogImageUrl : Option String
  twitterCardType : Option String

/-- Payload accepted by `insertFaqSchema` (note: it requires `pageId`;
the POST route merges `domainId`, which the schema strips as unknown). -/
structure InsertFaq where
  pageId : Nat
  question : String
  answer : String
  sortOrder : Option Nat
  isActive : Option Bool

/-- An optional field of a zod object: absent or null parses to `none`;
a present non-null value must parse with `f`. -/
def optField (j : Json) (k : String) (f : Json → Option α) : Option (Option α) :=
  match j.getField k with
  | none => some none
  | some .null => some none
  | some v => (f v).map some

/-- A required field of a zod object. -/
def reqField (j : Json) (k : String) (f : Json → Option α) : Option α :=
  (j.getField k).bind f

/-- zod objects reject non-object input before looking at fields. -/
def guardObj (j : Json) : Option Unit :=
  if j.isObj then some () else none

/-- `insertDomainSchema.parse` -/
def parseInsertDomain (j : Json) : Option InsertDomain := do
  guardObj j
  let name ← reqField j "name" Json.asStr
  let title ← optField j "title" Json.asStr
  let description ← optField j "description" Json.asStr
  let footerDescription ← optField j "footerDescription" Json.asStr
  let contactEmail ← optField j "contactEmail" Json.asStr
  let contactPhone ← optField j "contactPhone" Json.asStr
  let contactAddress ← optField j "contactAddress" Json.asStr
  let isActive ← optField j "isActive" Json.asBool
  some { name, title, description, footerDescription,
         contactEmail, contactPhone, contactAddress, isActive }

/-- `insertDomainSchema.partial().parse` -/
def parseDomainPatch (j : Json) : Option DomainPatch := do
  guardObj j
  let name ← optField j "name" Json.asStr
  let title ← optField j "title" Json.asStr
  let description ← optField j "description" Json.asStr
  let footerDescription ← optField j "footerDescription" Json.asStr
  let contactEmail ← optField j "contactEmail" Json.asStr
  let contactPhone ← optField j "contactPhone" Json.asStr
  let contactAddress ← optField j "contactAddress" Json.asStr
  let isActive ← optField j "isActive" Json.asBool
  some { name, title, description, footerDescription,
         contactEmail, contactPhone, contactAddress, isActive }

/-- `insertUserSchema.parse` -/
def parseInsertUser (j : Json) : Option InsertUser := do
  guardObj j
  let email ← reqField j "email" Json.asStr
  let password ← reqField j "password" Json.asStr
  let firstName ← optField j "firstName" Json.asStr
  let lastName ← optField j "lastName" Json.asStr
  let profileImageUrl ← optField j "profileImageUrl" Json.asStr
  let role ← optField j "role" Json.asStr
  let isActive ← optField j "isActive" Json.asBool
  some { email, password, firstName, lastName, profileImageUrl, role, isActive }

/-- `insertPageSchema.parse` applied to `{ ...req.body, domainId }`: the route
always supplies `domainId`, so the model requires it. -/
def parseInsertPage (j : Json) : Option InsertPage := do
  guardObj j
  let domainId ← reqField j "domainId" Json.asNat
  let name ← reqField j "name" Json.asStr
  let title ← optField j "title" Json.asStr
  let subtitle ← optField j "subtitle" Json.asStr
  let sectionsJson ← optField j "sectionsJson" some
  let metaTitle ← optField j "metaTitle" Json.asStr
  let metaDescription ← optField j "metaDescription" Json.asStr
  let status ← optField j "status" Json.asStr
  let faqsEnabled ← optField j "faqsEnabled" Json.asBool
  some { domainId, name, title, subtitle, sectionsJson,
         metaTitle, metaDescription, status, faqsEnabled }

/-- `insertPageSchema.partial().parse` -/
def parsePagePatch (j : Json) : Option PagePatch := do
  guardObj j
  let domainId ← optField j "domainId" Json.asNat
  let name ← optField j "name" Json.asStr
  let title ← optField j "title" Json.asStr
  let subtitle ← optField j "subtitle" Json.asStr
  let sectionsJson ← optField j "sectionsJson" some
  let metaTitle ← optField j "metaTitle" Json.asStr
  let metaDescription ← optField j "metaDescription" Json.asStr
  let status ← optField j "status" Json.asStr
  let faqsEnabled ← optField j "faqsEnabled" Json.asBool
  some { domainId, name, title, subtitle, sectionsJson,
         metaTitle, metaDescription, status, faqsEnabled }

/-- `insertDomainSettingsSchema.parse` applied to `{ ...req.body, domainId }`. -/
def parseInsertDomainSettings (j : Json) : Option InsertDomainSettings := do
  guardObj j
  let domainId ← reqField j "domainId" Json.asNat
  let visibleSections ← optField j "visibleSections" some
  let navigationSettings ← optField j "navigationSettings" some
  let footerDescription ← optField j "footerDescription" Json.asStr
  let contactInfo ← optField j "contactInfo" some
  some { domainId, visibleSections, navigationSettings, footerDescription, contactInfo }

/-- `insertSeoSettingsSchema.parse` applied to `{ ...req.body, domainId }`. -/
def parseInsertSeoSettings (j : Json) : Option InsertSeoSettings := do
  guardObj j
  let domainId ← reqField j "domainId" Json.asNat
  let websiteTitle ← optField j "websiteTitle" Json.asStr
  let metaDescription ← optField j "metaDescription" Json.asStr
  let metaKeywords ← optField j "metaKeywords" Json.asStr
  let canonicalUrl ← optField j "canonicalUrl" Json.asStr
  let googleAnalyticsId ← optField j "googleAnalyticsId" Json.asStr
  let googleAdsenseConfig ← optField j "googleAdsenseConfig" some
  let ogTitle ← optField j "ogTitle" Json.asStr
  let ogDescription ← optField j "ogDescription" Json.asStr
  let ogImageUrl ← optField j "ogImageUrl" Json.asStr
  let twitterCardType ← optField j "twitterCardType" Json.asStr
  some { domainId, websiteTitle, metaDescription, metaKeywords, canonicalUrl,
         googleAnalyticsId, googleAdsenseConfig, ogTitle, ogDescription,
         ogImageUrl, twitterCardType }

/-- `insertFaqSchema.parse` applied to `{ ...req.body, domainId }`
(`domainId` is stripped as an unknown key; `pageId` must come from the body). -/
def parseInsertFaq (j : Json) : Option InsertFaq := do
  guardObj j
  let pageId ← reqField j "pageId" Json.asNat
  let question ← reqField j "question" Json.asStr
  let answer ← reqField j "answer" Json.asStr
  let sortOrder ← optField j "sortOrder" Json.asNat
  let isActive ← optField j "isActive" Json.asBool
  some { pageId, question, answer, sortOrder, isActive }

/-! ## Storage layer (src/server/storage.ts, class DatabaseStorage)

Each method issues the SQL statements shown in the source; a statement that
violates a declared constraint makes the Promise reject, modelled as
`Except.error`. -/

/-- The ways a statement of this application can fail at the database. -/
inductive DbErr where
  | uniqueViolation : DbErr
  | pkViolation : DbErr
  | fkViolation : DbErr
  /-- `ON CONFLICT (col) DO UPDATE` with no unique or exclusion constraint
  matching `col` (Postgres error 42P10); raised on every execution of the
  statement, data-independent. -/
  | noMatchingOnConflictConstraint : DbErr
deriving DecidableEq, Repr

namespace Storage

/-- `getUser`: `select from users where id = id`, first row. -/
def getUser (db : DB) (id : String) : Option UserRow :=
  db.users.find? (fun u => u.id = id)

/-- `getUserByEmail`: `select from users where email = email`, first row. -/
def getUserByEmail (db : DB) (email : String) : Option UserRow :=
  db.users.find? (fun u => u.email = email)

/-- `getUsers`: `select from users`. -/
def getUsers (db : DB) : List UserRow :=
  db.users

/-- `createUser`: `insert into users values(userData) returning`.
The id comes from the column default `gen_random_uuid()`; the primary key and
the UNIQUE constraint on email are checked by the database. -/
def createUser (db : DB) (u : InsertUser) (env : Env) : Except DbErr (UserRow × DB) :=
  if db.users.any (fun r => r.id = env.freshUuid) then .error .pkViolation
  else if db.users.any (fun r => r.email = u.email) then .error .uniqueViolation
  else
    let row : UserRow :=
      { id := env.freshUuid, email := u.email, password := u.password,
        firstName := u.firstName, lastName := u.lastName,
        profileImageUrl := u.profileImageUrl,
        role := some (u.role.getD "admin"),
        isActive := some (u.isActive.getD true),
        createdAt := env.now, updatedAt := env.now }
    .ok (row, { db with users := db.users ++ [row] })

/-- `getDomains`: `select from domains`. -/
def getDomains (db : DB) : List DomainRow :=
  db.domains

/-- `getDomain`: `select from domains where id = id`, first row. -/
def getDomain (db : DB) (id : Nat) : Option DomainRow :=
  db.domains.find? (fun d => d.id = id)

/-- `createDomain`: `insert into domains values(domain) returning`; the id is
drawn from the serial sequence, and UNIQUE(name) is checked by the database. -/
def createDomain (db : DB) (d : InsertDomain) (now : Nat) : Except DbErr (DomainRow × DB) :=
  if db.domains.any (fun r => r.id = db.nextDomainId) then .error .pkViolation
  else if db.domains.any (fun r => r.name = d.name) then .error .uniqueViolation
  else
    let row : DomainRow :=
      { id := db.nextDomainId, name := d.name, title := d.title,
        description := d.description, footerDescription := d.footerDescription,
        contactEmail := d.contactEmail, contactPhone := d.contactPhone,
        contactAddress := d.contactAddress,
        isActive := some (d.isActive.getD true),
        createdAt := now, updatedAt := now }
    .ok (row, { db with domains := db.domains ++ [row],
                        nextDomainId := db.nextDomainId + 1 })

/-- Applying a validated partial domain payload to a row, as
`set({...domain, updatedAt: new Date()})` does. -/
def applyDomainPatch (p : DomainPatch) (r : DomainRow) (now : Nat) : DomainRow :=
  { r with name := p.name.getD r.name,
           title := p.title <|> r.title,
           description := p.description <|> r.description,
           footerDescription := p.footerDescription <|> r.footerDescription,
           contactEmail := p.contactEmail <|> r.contactEmail,
           contactPhone := p.contactPhone <|> r.contactPhone,
           contactAddress := p.contactAddress <|> r.contactAddress,
           isActive := p.isActive <|> r.isActive,
           updatedAt := now }

/-- `updateDomain`: `update domains set {...domain, updatedAt} where id = id
returning`; with no matching row the update returns `[]` and the destructured
result is `undefined` (`none`); a new name colliding with another row violates
UNIQUE(name). -/
def updateDomain (db : DB) (id : Nat) (p : DomainPatch) (now : Nat) :
    Except DbErr (Option DomainRow × DB) :=
  match db.domains.find? (fun r => r.id = id) with
  | none => .ok (none, db)
  | some r =>
    if db.domains.any (fun o => o.id ≠ id ∧ o.name = (applyDomainPatch p r now).name) then
      .error .uniqueViolation
    else
      .ok (some (applyDomainPatch p r now),
           { db with domains :=
               db.domains.map (fun o => if o.id = id then applyDomainPatch p o now else o) })

/-- `deleteDomain`: `delete from domains where id = id`.  The foreign keys
from pages, domain_settings and seo_settings to domains carry no ON DELETE
action, so the statement errors if any such row still references the domain;
deleting a non-existent id matches no row and succeeds. -/
def deleteDomain (db : DB) (id : Nat) : Except DbErr DB :=
  if db.domains.any (fun r => r.id = id) then
    if db.pages.any (fun p => p.domainId = id)
        || db.domainSettings.any (fun s => s.domainId = id)
        || db.seoSettings.any (fun s => s.domainId = id) then
      .error .fkViolation
    else
      .ok { db with domains := db.domains.filter (fun r => r.id ≠ id) }
  else
    .ok db

/-- `getPagesByDomain`: `select from pages where domainId = domainId`. -/
def getPagesByDomain (db : DB) (domainId : Nat) : List PageRow :=
  db.pages.filter (fun p => p.domainId = domainId)

/-- `getPage`: `select from pages where id = id`, first row. -/
def getPage (db : DB) (id : Nat) : Option PageRow :=
  db.pages.find? (fun p => p.id = id)

/-- `createPage`: `insert into pages values(page) returning`; the foreign key
requires the referenced domain to exist. -/
def createPage (db : DB) (p : InsertPage) (now : Nat) : Except DbErr (PageRow × DB) :=
  if db.pages.any (fun r => r.id = db.nextPageId) then .error .pkViolation
  else if ¬ db.domains.any (fun d => d.id = p.domainId) then .error .fkViolation
  else
    let row : PageRow :=
      { id := db.nextPageId, domainId := p.domainId, name := p.name,
        title := p.title, subtitle := p.subtitle,
        sectionsJson := p.sectionsJson.getD (Json.obj []),
        metaTitle := p.metaTitle, metaDescription := p.metaDescription,
        status := some (p.status.getD "draft"),
        faqsEnabled := some (p.faqsEnabled.getD false),
        createdAt := now, updatedAt := now }
    .ok (row, { db with pages := db.pages ++ [row], nextPageId := db.nextPageId + 1 })

/-- Applying a validated partial page payload to a row. -/
def applyPagePatch (p : PagePatch) (r : PageRow) (now : Nat) : PageRow :=
  { r with domainId := p.domainId.getD r.domainId,
           name := p.name.getD r.name,
           title := p.title <|> r.title,
           subtitle := p.subtitle <|> r.subtitle,
           sectionsJson := p.sectionsJson.getD r.sectionsJson,
           metaTitle := p.metaTitle <|> r.metaTitle,
           metaDescription := p.metaDescription <|> r.metaDescription,
           status := p.status <|> r.status,
           faqsEnabled := p.faqsEnabled <|> r.faqsEnabled,
           updatedAt := now }

/-- `updatePage`: `update pages set {...page, updatedAt} where id = id
returning`; a patch that moves the page to a non-existent domain violates the
foreign key. -/
def updatePage (db : DB) (id : Nat) (p : PagePatch) (now : Nat) :
    Except DbErr (Option PageRow × DB) :=
  match db.pages.find? (fun r => r.id = id) with
  | none => .ok (none, db)
  | some r =>
    if ¬ db.domains.any (fun d => d.id = (applyPagePatch p r now).domainId) then
      .error .fkViolation
    else
      .ok (some (applyPagePatch p r now),
           { db with pages :=
               db.pages.map (fun o => if o.id = id then applyPagePatch p o now else o) })

/-- `deletePage`: `delete from pages where id = id`; faqs.page_id is declared
`onDelete: "cascade"`, so the page's faqs are removed with it. -/
def deletePage (db : DB) (id : Nat) : DB :=
  { db with pages := db.pages.filter (fun p => p.id ≠ id),
            faqs := db.faqs.filter (fun f => f.pageId ≠ id) }

/-- `getDomainSettings`: `select from domain_settings where domainId = d`. -/
def getDomainSettings (db : DB) (domainId : Nat) : Option DomainSettingsRow :=
  db.domainSettings.find? (fun s => s.domainId = domainId)

/-- `upsertDomainSettings`: `insert into domain_settings values(settings)
on conflict (domain_id) do update set {...}`.  The schema declares no unique
or exclusion constraint on domain_settings.domain_id, so Postgres rejects the
ON CONFLICT inference on every execution (42P10): the statement always errors
and never writes. -/
def upsertDomainSettings (_db : DB) (_s : InsertDomainSettings) :
    Except DbErr (DomainSettingsRow × DB) :=
  .error .noMatchingOnConflictConstraint

/-- `getSeoSettings`: `select from seo_settings where domainId = d`. -/
def getSeoSettings (db : DB) (domainId : Nat) : Option SeoSettingsRow :=
  db.seoSettings.find? (fun s => s.domainId = domainId)

/-- `createFaq`: `insert into faqs values(data) returning`; the foreign key
requires the referenced page to exist. -/
def createFaq (db : DB) (f : InsertFaq) (now : Nat) : Except DbErr (FaqRow × DB) :=
  if db.faqs.any (fun r => r.id = db.nextFaqId) then .error .pkViolation
  else if ¬ db.pages.any (fun p => p.id = f.pageId) then .error .fkViolation
  else
    let row : FaqRow :=
      { id := db.nextFaqId, pageId := f.pageId, question := f.question,
        answer := f.answer, sortOrder := f.sortOrder.getD 0,
        isActive := f.isActive.getD true, createdAt := now, updatedAt := now }
    .ok (row, { db with faqs := db.faqs ++ [row], nextFaqId := db.nextFaqId + 1 })

/-- `updateFaq(id, data)`: `update faqs set {...data, updatedAt} where id = id
returning`, first row.  The route invokes it as `updateFaq(pageId, faqId, ...)`,
so in JavaScript `id` is bound to `pageId` and `data` to the number `faqId`,
whose spread contributes no columns: only `updatedAt` is set. -/
def updateFaqTimestampOnly (db : DB) (id : Nat) (now : Nat) : Option FaqRow × DB :=
  match db.faqs.find? (fun r => r.id = id) with
  | none => (none, db)
  | some r =>
    (some { r with updatedAt := now },
     { db with faqs := db.faqs.map (fun o => if o.id = id then { o with updatedAt := now } else o) })

/-- `deleteFaq(id)`: `delete from faqs where id = id` (the route passes
`pageId` as `id`; the second argument is dropped). -/
def deleteFaq (db : DB) (id : Nat) : DB :=
  { db with faqs := db.faqs.filter (fun f => f.id ≠ id) }

end Storage

/-! ## Serialization of rows, as `res.json(row)` renders them. -/

/-- `null` for an absent nullable column, as JSON serialization renders it. -/
def jstr : Option String → Json
  | some s => .str s
  | none => .null

def jbool : Option Bool → Json
  | some b => .bool b
  | none => .null

/-- A full user row, password column included (as `GET /api/users` and
`GET /api/auth/user` return it). -/
def userToJson (u : UserRow) : Json :=
  .obj [("id", .str u.id), ("email", .str u.email), ("password", .str u.password),
        ("firstName", jstr u.firstName), ("lastName", jstr u.lastName),
        ("profileImageUrl", jstr u.profileImageUrl), ("role", jstr u.role),
        ("isActive", jbool u.isActive),
        ("createdAt", .num u.createdAt), ("updatedAt", .num u.updatedAt)]

/-- `const { password, ...userWithoutPassword } = user` in POST /api/users. -/
def userToJsonNoPassword (u : UserRow) : Json :=
  .obj [("id", .str u.id), ("email", .str u.email),
        ("firstName", jstr u.firstName), ("lastName", jstr u.lastName),
        ("profileImageUrl", jstr u.profileImageUrl), ("role", jstr u.role),
        ("isActive", jbool u.isActive),
        ("createdAt", .num u.createdAt), ("updatedAt", .num u.updatedAt)]

def domainToJson (d : DomainRow) : Json :=
  .obj [("id", .num d.id), ("name", .str d.name), ("title", jstr d.title),
        ("description", jstr d.description),
        ("footerDescription", jstr d.footerDescription),
        ("contactEmail", jstr d.contactEmail), ("contactPhone", jstr d.contactPhone),
        ("contactAddress", jstr d.contactAddress), ("isActive", jbool d.isActive),
        ("createdAt", .num d.createdAt), ("updatedAt", .num d.updatedAt)]

def pageToJson (p : PageRow) : Json :=
  .obj [("id", .num p.id), ("domainId", .num p.domainId), ("name", .str p.name),
        ("title", jstr p.title), ("subtitle", jstr p.subtitle),
        ("sectionsJson", p.sectionsJson), ("metaTitle", jstr p.metaTitle),
        ("metaDescription", jstr p.metaDescription), ("status", jstr p.status),
        ("faqsEnabled", jbool p.faqsEnabled),
        ("createdAt", .num p.createdAt), ("updatedAt", .num p.updatedAt)]

def domainSettingsToJson (s : DomainSettingsRow) : Json :=
  .obj [("id", .num s.id), ("domainId", .num s.domainId),
        ("visibleSections", s.visibleSections),
        ("navigationSettings", s.navigationSettings),
        ("footerDescription", jstr s.footerDescription),
        ("contactInfo", s.contactInfo),
        ("createdAt", .num s.createdAt), ("updatedAt", .num s.updatedAt)]

def seoSettingsToJson (s : SeoSettingsRow) : Json :=
  .obj [("id", .num s.id), ("domainId", .num s.domainId),
        ("websiteTitle", jstr s.websiteTitle),
        ("metaDescription", jstr s.metaDescription),
        ("metaKeywords", jstr s.metaKeywords), ("canonicalUrl", jstr s.canonicalUrl),
        ("googleAnalyticsId", jstr s.googleAnalyticsId),
        ("googleAdsenseConfig", s.googleAdsenseConfig),
        ("ogTitle", jstr s.ogTitle), ("ogDescription", jstr s.ogDescription),
        ("ogImageUrl", jstr s.ogImageUrl),
        ("twitterCardType", jstr s.twitterCardType),
        ("createdAt", .num s.createdAt), ("updatedAt", .num s.updatedAt)]

def faqToJson (f : FaqRow) : Json :=
  .obj [("id", .num f.id), ("pageId", .num f.pageId),
        ("question", .str f.question), ("answer", .str f.answer),
        ("sortOrder", .num f.sortOrder), ("isActive", .bool f.isActive),
        ("createdAt", .num f.createdAt), ("updatedAt", .num f.updatedAt)]

/-! ## The HTTP layer (src/server/routes.ts, registerRoutes) -/

/-- The routes registered by `registerRoutes`, with their path parameters
already run through `parseInt`. -/
inductive Route where
  | postLogin
  | postLogout
  | getAuthUser
  | getDomains
  | postDomains
  | putDomain (id : Nat)
  | deleteDomain (id : Nat)
  | getPages (domainId : Nat)
  | postPages (domainId : Nat)
  | putPage (id : Nat)
  | deletePage (id : Nat)
  | getDomainSettings (domainId : Nat)
  | putDomainSettings (domainId : Nat)
  | getSeoSettings (domainId : Nat)
  | putSeoSettings (domainId : Nat)
  | getFaqs (domainId : Nat)
  | postFaqs (domainId : Nat)
  | putFaq (pageId faqId : Nat)
  | deleteFaq (pageId faqId : Nat)
  | getUsers
  | postUsers
  | getStats
deriving DecidableEq, Repr

/-- An incoming HTTP request: the matched route, the session content
(`(req.session as any).userId`) and the parsed JSON body. -/
structure Request where
  route : Route
  session : Option String
  body : Json

/-- An HTTP response: status code and optional JSON body (`.send()` with no
content and `res.json(undefined)` both produce an empty body). -/
structure Response where
  status : Nat
  body : Option Json

/-- Outcome of handling one request: the response, the database afterwards,
the session content afterwards, and how many storage-layer methods the
handler invoked. -/
structure HResult where
  response : Response
  db : DB
  session : Option String
  calls : Nat

def jsonMsg (m : String) : Json := .obj [("message", .str m)]

def errRes (code : Nat) (m : String) : Response :=
  { status := code, body := some (jsonMsg m) }

/-- A result that leaves the database and session as they were. -/
def noChange (db : DB) (req : Request) (resp : Response) (calls : Nat) : HResult :=
  { response := resp, db := db, session := req.session, calls := calls }

/-- The truthiness test of `req.session && (req.session as any).userId`. -/
def sessionTruthy : Option String → Bool
  | some s => s ≠ ""
  | none => false

/-- The `isAuthenticated` middleware: pass through when the session holds a
(truthy) userId, otherwise 401 without reaching the handler. -/
def withAuth (db : DB) (req : Request) (k : Unit → HResult) : HResult :=
  if sessionTruthy req.session then k ()
  else noChange db req (errRes 401 "Unauthorized") 0

/-- `loginUser` from auth.ts: look the user up by email, then check the
password with `bcrypt.compare`.  Any error inside is caught and returns null. -/
def loginUser (env : Env) (db : DB) (email password : String) : Option UserRow :=
  match Storage.getUserByEmail db email with
  | none => none
  | some user => if env.bcryptCompare password user.password then some user else none

/-- Payload accepted by `insertFaqSchema.partial()`. -/
structure FaqPatch where
  pageId : Option Nat
  question : Option String
  answer : Option String
  sortOrder : Option Nat
  isActive : Option Bool

/-- `insertFaqSchema.partial().parse` -/
def parseFaqPatch (j : Json) : Option FaqPatch := do
  guardObj j
  let pageId ← optField j "pageId" Json.asNat
  let question ← optField j "question" Json.asStr
  let answer ← optField j "answer" Json.asStr
  let sortOrder ← optField j "sortOrder" Json.asNat
  let isActive ← optField j "isActive" Json.asBool
  some { pageId, question, answer, sortOrder, isActive }

/-! ## The request handlers, one per registered route. -/

/-- POST /api/login: destructure email/password from the body, run
`loginUser`; on success store the user id in the session and answer with the
id/email/firstName/lastName projection, otherwise 401 "Invalid credentials".
A body without string credentials also ends in the null branch: the lookup or
`bcrypt.compare` rejects inside `loginUser`'s try/catch, which returns null. -/
def handleLogin (env : Env) (db : DB) (req : Request) : HResult :=
  match (req.body.getField "email").bind Json.asStr,
        (req.body.getField "password").bind Json.asStr with
  | some e, some p =>
    match loginUser env db e p with
    | some user =>
      { response := { status := 200,
                      body := some (.obj [("success", .bool true),
                        ("user", .obj [("id", .str user.id), ("email", .str user.email),
                                       ("firstName", jstr user.firstName),
                                       ("lastName", jstr user.lastName)])]) },
        db := db, session := some user.id, calls := 1 }
    | none => noChange db req (errRes 401 "Invalid credentials") 1
  | _, _ => noChange db req (errRes 401 "Invalid credentials") 1

/-- POST /api/logout: destroy the session, answer `{success: true}`. -/
def handleLogout (db : DB) (_req : Request) : HResult :=
  { response := { status := 200, body := some (.obj [("success", .bool true)]) },
    db := db, session := none, calls := 0 }

/-- GET /api/auth/user: look the session's userId up and return the row
(`res.json(undefined)` sends an empty 200 body when the user is gone). -/
def handleGetAuthUser (db : DB) (req : Request) : HResult :=
  { response := { status := 200,
                  body := (Storage.getUser db (req.session.getD "")).map userToJson },
    db := db, session := req.session, calls := 1 }

/-- GET /api/domains -/
def handleGetDomains (db : DB) (req : Request) : HResult :=
  noChange db req
    { status := 200, body := some (.arr ((Storage.getDomains db).map domainToJson)) } 1

/-- POST /api/domains -/
def handlePostDomains (env : Env) (db : DB) (req : Request) : HResult :=
  match parseInsertDomain req.body with
  | none => noChange db req (errRes 400 "Failed to create domain") 0
  | some d =>
    match Storage.createDomain db d env.now with
    | .error _ => noChange db req (errRes 400 "Failed to create domain") 1
    | .ok (row, db') =>
      { response := { status := 201, body := some (domainToJson row) },
        db := db', session := req.session, calls := 1 }

/-- PUT /api/domains/:id -/
def handlePutDomain (env : Env) (db : DB) (req : Request) (id : Nat) : HResult :=
  match parseDomainPatch req.body with
  | none => noChange db req (errRes 400 "Failed to update domain") 0
  | some p =>
    match Storage.updateDomain db id p env.now with
    | .error _ => noChange db req (errRes 400 "Failed to update domain") 1
    | .ok (row?, db') =>
      { response := { status := 200, body := row?.map domainToJson },
        db := db', session := req.session, calls := 1 }

/-- DELETE /api/domains/:id -/
def handleDeleteDomain (db : DB) (req : Request) (id : Nat) : HResult :=
  match Storage.deleteDomain db id with
  | .error _ => noChange db req (errRes 400 "Failed to delete domain") 1
  | .ok db' =>
    { response := { status := 204, body := none },
      db := db', session := req.session, calls := 1 }

/-- GET /api/domains/:domainId/pages -/
def handleGetPages (db : DB) (req : Request) (domainId : Nat) : HResult :=
  noChange db req
    { status := 200,
      body := some (.arr ((Storage.getPagesByDomain db domainId).map pageToJson)) } 1

/-- POST /api/domains/:domainId/pages: validate `{ ...req.body, domainId }`. -/
def handlePostPages (env : Env) (db : DB) (req : Request) (domainId : Nat) : HResult :=
  match parseInsertPage (req.body.setField "domainId" (.num domainId)) with
  | none => noChange db req (errRes 400 "Failed to create page") 0
  | some p =>
    match Storage.createPage db p env.now with
    | .error _ => noChange db req (errRes 400 "Failed to create page") 1
    | .ok (row, db') =>
      { response := { status := 201, body := some (pageToJson row) },
        db := db', session := req.session, calls := 1 }

/-- PUT /api/pages/:id -/
def handlePutPage (env : Env) (db : DB) (req : Request) (id : Nat) : HResult :=
  match parsePagePatch req.body with
  | none => noChange db req (errRes 400 "Failed to update page") 0
  | some p =>
    match Storage.updatePage db id p env.now with
    | .error _ => noChange db req (errRes 400 "Failed to update page") 1
    | .ok (row?, db') =>
      { response := { status := 200, body := row?.map pageToJson },
        db := db', session := req.session, calls := 1 }

/-- DELETE /api/pages/:id -/
def handleDeletePage (db : DB) (req : Request) (id : Nat) : HResult :=
  { response := { status := 204, body := none },
    db := Storage.deletePage db id, session := req.session, calls := 1 }

/-- GET /api/domains/:domainId/settings: `res.json(settings || { domainId,
visibleSections: [], navigationSettings: {} })`. -/
def handleGetDomainSettings (db : DB) (req : Request) (domainId : Nat) : HResult :=
  noChange db req
    { status := 200,
      body := some (match Storage.getDomainSettings db domainId with
        | some s => domainSettingsToJson s
        | none => .obj [("domainId", .num domainId),
                        ("visibleSections", .arr []),
                        ("navigationSettings", .obj [])]) } 1

/-- PUT /api/domains/:domainId/settings: validate `{ ...req.body, domainId }`
then call `upsertDomainSettings` (whose statement always errors, see there). -/
def handlePutDomainSettings (db : DB) (req : Request) (domainId : Nat) : HResult :=
  match parseInsertDomainSettings (req.body.setField "domainId" (.num domainId)) with
  | none => noChange db req (errRes 400 "Failed to update domain settings") 0
  | some s =>
    match Storage.upsertDomainSettings db s with
    | .error _ => noChange db req (errRes 400 "Failed to update domain settings") 1
    | .ok (row, db') =>
      { response := { status := 200, body := some (domainSettingsToJson row) },
        db := db', session := req.session, calls := 1 }

/-- GET /api/domains/:domainId/seo: `res.json(settings || { domainId })`. -/
def handleGetSeoSettings (db : DB) (req : Request) (domainId : Nat) : HResult :=
  noChange db req
    { status := 200,
      body := some (match Storage.getSeoSettings db domainId with
        | some s => seoSettingsToJson s
        | none => .obj [("domainId", .num domainId)]) } 1

/-- PUT /api/domains/:domainId/seo: after validation the route calls
`storage.upsertSeoSettings(validatedData)`, but `DatabaseStorage` in
src/server/storage.ts defines no such method (it has
`updateSeoSettings(domainId, data)` instead), so the call raises a TypeError
before reaching the storage layer and the catch answers 400. -/
def handlePutSeoSettings (db : DB) (req : Request) (domainId : Nat) : HResult :=
  match parseInsertSeoSettings (req.body.setField "domainId" (.num domainId)) with
  | none => noChange db req (errRes 400 "Failed to update SEO settings") 0
  | some _ => noChange db req (errRes 400 "Failed to update SEO settings") 0

/-- GET /api/domains/:domainId/faqs: the route calls
`storage.getFaqsByDomain(domainId)`, a method `DatabaseStorage` does not
define (it has `getFaqsByPage`), so the call raises a TypeError and the catch
answers 500. -/
def handleGetFaqs (db : DB) (req : Request) (_domainId : Nat) : HResult :=
  noChange db req (errRes 500 "Failed to fetch FAQs") 0

/-- POST /api/domains/:domainId/faqs: validate `{ ...req.body, domainId }`
(`insertFaqSchema` strips `domainId` and requires `pageId` from the body). -/
def handlePostFaqs (env : Env) (db : DB) (req : Request) (domainId : Nat) : HResult :=
  match parseInsertFaq (req.body.setField "domainId" (.num domainId)) with
  | none => noChange db req (errRes 400 "Failed to create FAQ") 0
  | some f =>
    match Storage.createFaq db f env.now with
    | .error _ => noChange db req (errRes 400 "Failed to create FAQ") 1
    | .ok (row, db') =>
      { response := { status := 201, body := some (faqToJson row) },
        db := db', session := req.session, calls := 1 }

/-- PUT /api/pages/:pageId/faqs/:faqId: the route validates the body but then
calls `storage.updateFaq(pageId, faqId, validatedData)` against the two-
parameter `updateFaq(id, data)`: `id` is bound to `pageId`, `data` to the
number `faqId` (whose spread contributes nothing), and the validated payload
is dropped.  Only `updatedAt` is written, on the faq whose id equals `pageId`. -/
def handlePutFaq (env : Env) (db : DB) (req : Request) (pageId _faqId : Nat) : HResult :=
  match parseFaqPatch req.body with
  | none => noChange db req (errRes 400 "Failed to update FAQ") 0
  | some _ =>
    let (row?, db') := Storage.updateFaqTimestampOnly db pageId env.now
    { response := { status := 200, body := row?.map faqToJson },
      db := db', session := req.session, calls := 1 }

/-- DELETE /api/pages/:pageId/faqs/:faqId: `storage.deleteFaq(pageId, faqId)`
binds `id := pageId` (the extra argument is dropped), deleting the faq whose
id equals `pageId`. -/
def handleDeleteFaq (db : DB) (req : Request) (pageId _faqId : Nat) : HResult :=
  { response := { status := 204, body := none },
    db := Storage.deleteFaq db pageId, session := req.session, calls := 1 }

/-- GET /api/users -/
def handleGetUsers (db : DB) (req : Request) : HResult :=
  noChange db req
    { status := 200, body := some (.arr ((Storage.getUsers db).map userToJson)) } 1

/-- POST /api/users: hash the validated password with `bcrypt.hash(·, 10)`
before storing, and answer with the row minus its password field. -/
def handlePostUsers (env : Env) (db : DB) (req : Request) : HResult :=
  match parseInsertUser req.body with
  | none => noChange db req (errRes 400 "Failed to create user") 0
  | some u =>
    let hashed := { u with password := env.bcryptHash u.password }
    match Storage.createUser db hashed env with
    | .error _ => noChange db req (errRes 400 "Failed to create user") 1
    | .ok (row, db') =>
      { response := { status := 201, body := some (userToJsonNoPassword row) },
        db := db', session := req.session, calls := 1 }

/-- GET /api/dashboard/stats: fetch all domains, then loop over them fetching
each domain's pages to total them, and answer with the two counts plus the
hard-coded "views" and "revenue" strings. -/
def handleGetStats (db : DB) (req : Request) : HResult :=
  let ds := Storage.getDomains db
  let totalPages := ds.foldl (fun acc d => acc + (Storage.getPagesByDomain db d.id).length) 0
  noChange db req
    { status := 200,
      body := some (.obj [("domains", .num ds.length), ("pages", .num totalPages),
                          ("views", .str "24.3K"), ("revenue", .str "$1,247")]) }
    (ds.foldl (fun acc _ => acc + 1) 1)

/-- The server: dispatch a request to its route's handler; every route except
POST /api/login and POST /api/logout is wrapped in `isAuthenticated`. -/
def handle (env : Env) (db : DB) (req : Request) : HResult :=
  match req.route with
  | .postLogin => handleLogin env db req
  | .postLogout => handleLogout db req
  | .getAuthUser => withAuth db req (fun _ => handleGetAuthUser db req)
  | .getDomains => withAuth db req (fun _ => handleGetDomains db req)
  | .postDomains => withAuth db req (fun _ => handlePostDomains env db req)
  | .putDomain id => withAuth db req (fun _ => handlePutDomain env db req id)
  | .deleteDomain id => withAuth db req (fun _ => handleDeleteDomain db req id)
  | .getPages d => withAuth db req (fun _ => handleGetPages db req d)
  | .postPages d => withAuth db req (fun _ => handlePostPages env db req d)
  | .putPage id => withAuth db req (fun _ => handlePutPage env db req id)
  | .deletePage id => withAuth db req (fun _ => handleDeletePage db req id)
  | .getDomainSettings d => withAuth db req (fun _ => handleGetDomainSettings db req d)
  | .putDomainSettings d => withAuth db req (fun _ => handlePutDomainSettings db req d)
  | .getSeoSettings d => withAuth db req (fun _ => handleGetSeoSettings db req d)
  | .putSeoSettings d => withAuth db req (fun _ => handlePutSeoSettings db req d)
  | .getFaqs d => withAuth db req (fun _ => handleGetFaqs db req d)
  | .postFaqs d => withAuth db req (fun _ => handlePostFaqs env db req d)
  | .putFaq p f => withAuth db req (fun _ => handlePutFaq env db req p f)
  | .deleteFaq p f => withAuth db req (fun _ => handleDeleteFaq db req p f)
  | .getUsers => withAuth db req (fun _ => handleGetUsers db req)
  | .postUsers => withAuth db req (fun _ => handlePostUsers env db req)
  | .getStats => withAuth db req (fun _ => handleGetStats db req)

/-- `initializeDefaultUser` (auth.ts), run by `setupAuth` before the routes:
create admin@gmail.com with the bcrypt hash of "123456" unless present. -/
def initializeDefaultUser (env : Env) (db : DB) : DB :=
  match Storage.getUserByEmail db "admin@gmail.com" with
  | some _ => db
  | none =>
    match Storage.createUser db
        { email := "admin@gmail.com", password := env.bcryptHash "123456",
          firstName := some "Admin", lastName := some "User",
          profileImageUrl := none,
          role := some "admin", isActive := some true } env with
    | .ok (_, db') => db'
    | .error _ => db

/-- The database a fresh server starts from. -/
def initialDb (env : Env) : DB :=
  initializeDefaultUser env DB.empty

/-- Database states reachable from a fresh server by any sequence of API
requests (each with its own environment). -/
inductive Reachable : DB → Prop where
  | init (env : Env) : Reachable (initialDb env)
  | step (env : Env) (req : Request) {db : DB} :
      Reachable db → Reachable (handle env db req).db

/-! ## Invariants of the declared schema constraints -/

/-- The uniqueness facts guaranteed by the schema: UNIQUE(domains.name),
UNIQUE(users.email), and the domains primary key. -/
def UniquenessInv (db : DB) : Prop :=
  db.domains.Pairwise (fun a b => a.name ≠ b.name) ∧
  db.users.Pairwise (fun a b => a.email ≠ b.email) ∧
  db.domains.Pairwise (fun a b => a.id ≠ b.id)

/-- In a list whose keys are pairwise distinct, members with equal keys are
equal. -/
theorem pairwise_key_inj {α κ : Type} {k : α → κ} {l : List α}
    (h : l.Pairwise (fun a b => k a ≠ k b)) :
    ∀ a ∈ l, ∀ b ∈ l, k a = k b → a = b := by
  induction l with
  | nil => simp
  | cons x xs ih =>
    rw [List.pairwise_cons] at h
    intro a ha b hb hk
    rcases List.mem_cons.mp ha with rfl | ha'
    · rcases List.mem_cons.mp hb with rfl | hb'
      · rfl
      · exact absurd hk (h.1 b hb')
    · rcases List.mem_cons.mp hb with rfl | hb'
      · exact absurd hk.symm (h.1 a ha')
      · exact ih h.2 a ha' b hb' hk

theorem inv_createDomain {db : DB} {d : InsertDomain} {now : Nat}
    {row : DomainRow} {db' : DB}
    (h : Storage.createDomain db d now = .ok (row, db')) (hinv : UniquenessInv db) :
    UniquenessInv db' := by
  obtain ⟨hn, he, hi⟩ := hinv
  unfold Storage.createDomain at h
  split at h
  · exact absurd h (by simp)
  · split at h
    · exact absurd h (by simp)
    · rename_i hpk hname
      simp only [List.any_eq_true, decide_eq_true_eq, not_exists, not_and] at hpk hname
      cases h
      refine ⟨?_, he, ?_⟩
      · rw [List.pairwise_append]
        refine ⟨hn, by simp, ?_⟩
        intro a ha b hb
        simp only [List.mem_singleton] at hb
        subst hb
        push_neg at hname
        exact fun hcontra => hname a ha hcontra
      · rw [List.pairwise_append]
        refine ⟨hi, by simp, ?_⟩
        intro a ha b hb
        simp only [List.mem_singleton] at hb
        subst hb
        push_neg at hpk
        exact fun hcontra => hpk a ha hcontra

theorem inv_deleteDomain {db : DB} {id : Nat} {db' : DB}
    (h : Storage.deleteDomain db id = .ok db') (hinv : UniquenessInv db) :
    UniquenessInv db' := by
  obtain ⟨hn, he, hi⟩ := hinv
  unfold Storage.deleteDomain at h
  split at h
  · split at h
    · exact absurd h (by simp)
    · cases h
      exact ⟨hn.sublist (List.filter_sublist _), he, hi.sublist (List.filter_sublist _)⟩
  · cases h
    exact ⟨hn, he, hi⟩

theorem inv_createUser {db : DB} {u : InsertUser} {env : Env}
    {row : UserRow} {db' : DB}
    (h : Storage.createUser db u env = .ok (row, db')) (hinv : UniquenessInv db) :
    UniquenessInv db' := by
  obtain ⟨hn, he, hi⟩ := hinv
  unfold Storage.createUser at h
  split at h
  · exact absurd h (by simp)
  · split at h
    · exact absurd h (by simp)
    · rename_i hpk hemail
      simp only [List.any_eq_true, decide_eq_true_eq, not_exists, not_and] at hemail
      cases h
      refine ⟨hn, ?_, hi⟩
      rw [List.pairwise_append]
      refine ⟨he, by simp, ?_⟩
      intro a ha b hb
      simp only [List.mem_singleton] at hb
      subst hb
      push_neg at hemail
      exact fun hcontra => hemail a ha hcontra

theorem applyDomainPatch_id (p : DomainPatch) (r : DomainRow) (now : Nat) :
    (Storage.applyDomainPatch p r now).id = r.id := rfl

theorem applyDomainPatch_name (p : DomainPatch) (r : DomainRow) (now : Nat) :
    (Storage.applyDomainPatch p r now).name = p.name.getD r.name := rfl

theorem inv_updateDomain {db : DB} {id : Nat} {p : DomainPatch} {now : Nat}
    {res : Option DomainRow} {db' : DB}
    (h : Storage.updateDomain db id p now = .ok (res, db')) (hinv : UniquenessInv db) :
    UniquenessInv db' := by
  obtain ⟨hn, he, hi⟩ := hinv
  unfold Storage.updateDomain at h
  split at h
  · cases h
    exact ⟨hn, he, hi⟩
  · rename_i r hfind
    split at h
    · exact absurd h (by simp)
    · rename_i hany
      simp only [List.any_eq_true, decide_eq_true_eq, not_exists, not_and] at hany
      cases h
      have hrmem : r ∈ db.domains := List.mem_of_find?_eq_some hfind
      have hrid : r.id = id := by simpa using List.find?_some hfind
      -- the updated row's name is distinct from every other row's name
      have hother : ∀ o ∈ db.domains, o.id ≠ id →
          o.name ≠ (Storage.applyDomainPatch p r now).name := by
        intro o ho hoid
        exact hany o ho hoid
      refine ⟨?_, he, ?_⟩
      · rw [List.pairwise_map]
        refine (hn.and hi).imp_of_mem ?_
        intro a b ha hb hab
        obtain ⟨habname, habid⟩ := hab
        by_cases haid : a.id = id
        · by_cases hbid : b.id = id
          · exact absurd (haid.trans hbid.symm) habid
          · -- a is the updated row; since ids are pairwise distinct, a = r
            have har : a = r := pairwise_key_inj hi a ha r hrmem (haid.trans hrid.symm)
            simp only [haid, if_pos rfl, hbid, if_neg hbid]
            subst har
            exact fun hc => hother b hb hbid hc.symm
        · by_cases hbid : b.id = id
          · have hbr : b = r := pairwise_key_inj hi b hb r hrmem (hbid.trans hrid.symm)
            simp only [haid, if_neg haid, hbid, if_pos rfl]
            subst hbr
            exact hother a ha haid
          · simpa [if_neg haid, if_neg hbid] using habname
      · rw [List.pairwise_map]
        refine hi.imp ?_
        intro a b hab
        have ha' : (if a.id = id then Storage.applyDomainPatch p a now else a).id = a.id := by
          split <;> simp [applyDomainPatch_id]
        have hb' : (if b.id = id then Storage.applyDomainPatch p b now else b).id = b.id := by
          split <;> simp [applyDomainPatch_id]
        simp only [ha', hb']
        exact hab

theorem createPage_tables {db : DB} {p : InsertPage} {now : Nat}
    {row : PageRow} {db' : DB} (h : Storage.createPage db p now = .ok (row, db')) :
    db'.domains = db.domains ∧ db'.users = db.users := by
  unfold Storage.createPage at h
  split at h
  · exact absurd h (by simp)
  · split at h
    · exact absurd h (by simp)
    · cases h; exact ⟨rfl, rfl⟩

theorem updatePage_tables {db : DB} {id : Nat} {p : PagePatch} {now : Nat}
    {res : Option PageRow} {db' : DB}
    (h : Storage.updatePage db id p now = .ok (res, db')) :
    db'.domains = db.domains ∧ db'.users = db.users := by
  unfold Storage.updatePage at h
  split at h
  · cases h; exact ⟨rfl, rfl⟩
  · split at h
    · exact absurd h (by simp)
    · cases h; exact ⟨rfl, rfl⟩

theorem createFaq_tables {db : DB} {f : InsertFaq} {now : Nat}
    {row : FaqRow} {db' : DB} (h : Storage.createFaq db f now = .ok (row, db')) :
    db'.domains = db.domains ∧ db'.users = db.users := by
  unfold Storage.createFaq at h
  split at h
  · exact absurd h (by simp)
  · split at h
    · exact absurd h (by simp)
    · cases h; exact ⟨rfl, rfl⟩

theorem updateFaqTimestampOnly_tables (db : DB) (id now : Nat) :
    (Storage.updateFaqTimestampOnly db id now).2.domains = db.domains ∧
    (Storage.updateFaqTimestampOnly db id now).2.users = db.users := by
  unfold Storage.updateFaqTimestampOnly
  split <;> exact ⟨rfl, rfl⟩

/-- Every request handler preserves the schema's uniqueness facts. -/
theorem inv_handle (env : Env) (db : DB) (req : Request) (hinv : UniquenessInv db) :
    UniquenessInv (handle env db req).db := by
  obtain ⟨route, session, body⟩ := req
  cases route with
  | postLogin =>
    simp only [handle, handleLogin]
    repeat' split
    all_goals exact hinv
  | postLogout => exact hinv
  | getAuthUser =>
    simp only [handle, withAuth]
    split <;> exact hinv
  | getDomains =>
    simp only [handle, withAuth]
    split <;> exact hinv
  | postDomains =>
    simp only [handle, withAuth]
    split
    · simp only [handlePostDomains]
      split
      · exact hinv
      · split
        · exact hinv
        · rename_i heq
          exact inv_createDomain heq hinv
    · exact hinv
  | putDomain id =>
    simp only [handle, withAuth]
    split
    · simp only [handlePutDomain]
      split
      · exact hinv
      · split
        · exact hinv
        · rename_i heq
          exact inv_updateDomain heq hinv
    · exact hinv
  | deleteDomain id =>
    simp only [handle, withAuth]
    split
    · simp only [handleDeleteDomain]
      split
      · exact hinv
      · rename_i heq
        exact inv_deleteDomain heq hinv
    · exact hinv
  | getPages d =>
    simp only [handle, withAuth]
    split <;> exact hinv
  | postPages d =>
    obtain ⟨hn, he, hi⟩ := hinv
    simp only [handle, withAuth]
    split
    · simp only [handlePostPages]
      split
      · exact ⟨hn, he, hi⟩
      · split
        · exact ⟨hn, he, hi⟩
        · rename_i heq
          obtain ⟨hd, hu⟩ := createPage_tables heq
          exact ⟨hd ▸ hn, hu ▸ he, hd ▸ hi⟩
    · exact ⟨hn, he, hi⟩
  | putPage id =>
    obtain ⟨hn, he, hi⟩ := hinv
    simp only [handle, withAuth]
    split
    · simp only [handlePutPage]
      split
      · exact ⟨hn, he, hi⟩
      · split
        · exact ⟨hn, he, hi⟩
        · rename_i heq
          obtain ⟨hd, hu⟩ := updatePage_tables heq
          exact ⟨hd ▸ hn, hu ▸ he, hd ▸ hi⟩
    · exact ⟨hn, he, hi⟩
  | deletePage id =>
    simp only [handle, withAuth]
    split <;> exact hinv
  | getDomainSettings d =>
    simp only [handle, withAuth]
    split <;> exact hinv
  | putDomainSettings d =>
    simp only [handle, withAuth]
    split
    · simp only [handlePutDomainSettings]
      split
      · exact hinv
      · split
        · exact hinv
        · rename_i heq
          exact absurd heq (by simp [Storage.upsertDomainSettings])
    · exact hinv
  | getSeoSettings d =>
    simp only [handle, withAuth]
    split <;> exact hinv
  | putSeoSettings d =>
    simp only [handle, withAuth]
    split
    · simp only [handlePutSeoSettings]
      split <;> exact hinv
    · exact hinv
  | getFaqs d =>
    simp only [handle, withAuth]
    split <;> exact hinv
  | postFaqs d =>
    obtain ⟨hn, he, hi⟩ := hinv
    simp only [handle, withAuth]
    split
    · simp only [handlePostFaqs]
      split
      · exact ⟨hn, he, hi⟩
      · split
        · exact ⟨hn, he, hi⟩
        · rename_i heq
          obtain ⟨hd, hu⟩ := createFaq_tables heq
          exact ⟨hd ▸ hn, hu ▸ he, hd ▸ hi⟩
    · exact ⟨hn, he, hi⟩
  | putFaq p f =>
    obtain ⟨hn, he, hi⟩ := hinv
    simp only [handle, withAuth]
    split
    · simp only [handlePutFaq]
      split
      · exact ⟨hn, he, hi⟩
      · obtain ⟨hd, hu⟩ := updateFaqTimestampOnly_tables db p env.now
        exact ⟨hd ▸ hn, hu ▸ he, hd ▸ hi⟩
    · exact ⟨hn, he, hi⟩
  | deleteFaq p f =>
    simp only [handle, withAuth]
    split <;> exact hinv
  | getUsers =>
    simp only [handle, withAuth]
    split <;> exact hinv
  | postUsers =>
    simp only [handle, withAuth]
    split
    · simp only [handlePostUsers]
      split
      · exact hinv
      · split
        · exact hinv
        · rename_i heq
          exact inv_createUser heq hinv
    · exact hinv
  | getStats =>
    simp only [handle, withAuth]
    split <;> exact hinv

theorem inv_initialDb (env : Env) : UniquenessInv (initialDb env) := by
  simp [initialDb, initializeDefaultUser, Storage.getUserByEmail,
        Storage.createUser, DB.empty, UniquenessInv]

/-- Every reachable database state satisfies the uniqueness facts. -/
theorem reachable_uniqueness {db : DB} (h : Reachable db) : UniquenessInv db := by
  induction h with
  | init env => exact inv_initialDb env
  | step env req _ ih => exact inv_handle env _ req ih

/-- A duplicate-named insert into domains always errors. -/
theorem createDomain_dup_errors (db : DB) (d : InsertDomain) (now : Nat)
    (r : DomainRow) (hr : r ∈ db.domains) (hname : d.name = r.name) :
    ∃ e, Storage.createDomain db d now = .error e := by
  unfold Storage.createDomain
  split
  · exact ⟨_, rfl⟩
  · have hany : db.domains.any (fun o => o.name = d.name) = true := by
      rw [List.any_eq_true]
      exact ⟨r, hr, by simp [hname]⟩
    exact ⟨_, by rw [if_pos hany]⟩

/-! ## A concrete environment and databases for closed instances. -/

/-- A concrete environment: a fixed clock and uuid, and a reference bcrypt
pair where hashing prefixes the salt header (so `hash p ≠ p`). -/
def envW : Env :=
  { now := 0, freshUuid := "00000000-0000-0000-0000-000000000001",
    bcryptHash := fun p => "$2b$10$" ++ p,
    bcryptCompare := fun p h => h = "$2b$10$" ++ p }

/-! ## Claims -/

/-- C1: for every request to a protected /api endpoint (every route except
POST /api/login and POST /api/logout, all registered with `isAuthenticated`),
a session without a userId gets status 401 with message "Unauthorized", no
storage operation runs, and the stored state is unchanged. -/
theorem c1_protected_routes_reject_unauthenticated (env : Env) (db : DB)
    (req : Request) (hlogin : req.route ≠ Route.postLogin)
    (hlogout : req.route ≠ Route.postLogout) (hsess : req.session = none) :
    (handle env db req).response = errRes 401 "Unauthorized" ∧
    (handle env db req).db = db ∧ (handle env db req).calls = 0 := by
  obtain ⟨route, session, body⟩ := req
  subst hsess
  cases route <;> first
    | exact absurd rfl hlogin
    | exact absurd rfl hlogout
    | exact ⟨rfl, rfl, rfl⟩

theorem c1_witness :
    (handle envW DB.empty { route := .getDomains, session := none, body := .null }).response
        = errRes 401 "Unauthorized" ∧
      (handle envW DB.empty { route := .getDomains, session := none, body := .null }).db
        = DB.empty ∧
      (handle envW DB.empty { route := .getDomains, session := none, body := .null }).calls = 0 :=
  c1_protected_routes_reject_unauthenticated envW DB.empty
    { route := .getDomains, session := none, body := .null }
    (by decide) (by decide) rfl

/-- C4: in every reachable state no two domain rows share a name and no two
user rows share an email; and a POST /api/domains whose validated name equals
an existing domain's name is rejected with an error status (400, or 401 when
unauthenticated) and leaves the domains table unchanged. -/
theorem c4_uniqueness_invariants (db : DB) (h : Reachable db) :
    db.domains.Pairwise (fun a b => a.name ≠ b.name) ∧
    db.users.Pairwise (fun a b => a.email ≠ b.email) ∧
    (∀ (env : Env) (sess : Option String) (body : Json) (d : InsertDomain),
      ∀ r ∈ db.domains, parseInsertDomain body = some d → d.name = r.name →
      ((handle env db { route := .postDomains, session := sess, body := body }).response.status = 400 ∨
       (handle env db { route := .postDomains, session := sess, body := body }).response.status = 401) ∧
      (handle env db { route := .postDomains, session := sess, body := body }).db = db) := by
  obtain ⟨hn, he, _⟩ := reachable_uniqueness h
  refine ⟨hn, he, ?_⟩
  intro env sess body d r hr hparse hname
  simp only [handle, withAuth]
  split
  · simp only [handlePostDomains, hparse]
    obtain ⟨e, hcd⟩ := createDomain_dup_errors db d env.now r hr hname
    simp only [hcd]
    exact ⟨Or.inl rfl, rfl⟩
  · exact ⟨Or.inr rfl, rfl⟩

theorem c4_witness :
    (initialDb envW).domains.Pairwise (fun a b => a.name ≠ b.name) ∧
    (initialDb envW).users.Pairwise (fun a b => a.email ≠ b.email) :=
  ⟨(c4_uniqueness_invariants (initialDb envW) (Reachable.init envW)).1,
   (c4_uniqueness_invariants (initialDb envW) (Reachable.init envW)).2.1⟩

/-- C9: for a domain id with no stored settings row,
GET /api/domains/:domainId/settings answers 200 with the default object
`{ domainId, visibleSections: [], navigationSettings: {} }`, and
GET /api/domains/:domainId/seo answers 200 with `{ domainId }`; neither is an
error response. -/
theorem c9_settings_default_when_absent (env : Env) (db : DB) (d : Nat)
    (uid : String) (body : Json) (huid : uid ≠ "")
    (h1 : ∀ s ∈ db.domainSettings, s.domainId ≠ d)
    (h2 : ∀ s ∈ db.seoSettings, s.domainId ≠ d) :
    (handle env db { route := .getDomainSettings d, session := some uid, body := body }).response
      = { status := 200,
          body := some (.obj [("domainId", .num d), ("visibleSections", .arr []),
                              ("navigationSettings", .obj [])]) } ∧
    (handle env db { route := .getSeoSettings d, session := some uid, body := body }).response
      = { status := 200, body := some (.obj [("domainId", .num d)]) } := by
  have hf1 : Storage.getDomainSettings db d = none := by
    unfold Storage.getDomainSettings
    rw [List.find?_eq_none]
    intro s hs
    simpa using h1 s hs
  have hf2 : Storage.getSeoSettings db d = none := by
    unfold Storage.getSeoSettings
    rw [List.find?_eq_none]
    intro s hs
    simpa using h2 s hs
  constructor
  · simp [handle, withAuth, sessionTruthy, huid, handleGetDomainSettings, noChange, hf1]
  · simp [handle, withAuth, sessionTruthy, huid, handleGetSeoSettings, noChange, hf2]

theorem c9_witness :
    (handle envW DB.empty { route := .getDomainSettings 7, session := some "u", body := .null }).response
      = { status := 200,
          body := some (.obj [("domainId", .num 7), ("visibleSections", .arr []),
                              ("navigationSettings", .obj [])]) } ∧
    (handle envW DB.empty { route := .getSeoSettings 7, session := some "u", body := .null }).response
      = { status := 200, body := some (.obj [("domainId", .num 7)]) } :=
  c9_settings_default_when_absent envW DB.empty 7 "u" .null (by decide)
    (by simp [DB.empty]) (by simp [DB.empty])

/-- C10: an authenticated PUT /api/domains/:id or PUT /api/pages/:id with a
valid body but no matching row answers 200 with an empty body (the storage
update returns undefined), not 404, and leaves every table unchanged. -/
theorem c10_put_missing_id_yields_empty_200 (env : Env) (db : DB) (id : Nat)
    (uid : String) (bodyD bodyP : Json) (pD : DomainPatch) (pP : PagePatch)
    (huid : uid ≠ "")
    (hD : parseDomainPatch bodyD = some pD)
    (hP : parsePagePatch bodyP = some pP)
    (hnoD : ∀ r ∈ db.domains, r.id ≠ id)
    (hnoP : ∀ r ∈ db.pages, r.id ≠ id) :
    ((handle env db { route := .putDomain id, session := some uid, body := bodyD }).response.status = 200 ∧
     (handle env db { route := .putDomain id, session := some uid, body := bodyD }).response.body = none ∧
     (handle env db { route := .putDomain id, session := some uid, body := bodyD }).db = db) ∧
    ((handle env db { route := .putPage id, session := some uid, body := bodyP }).response.status = 200 ∧
     (handle env db { route := .putPage id, session := some uid, body := bodyP }).response.body = none ∧
     (handle env db { route := .putPage id, session := some uid, body := bodyP }).db = db) := by
  have hfD : db.domains.find? (fun r => r.id = id) = none := by
    rw [List.find?_eq_none]
    intro r hr
    simpa using hnoD r hr
  have hfP : db.pages.find? (fun r => r.id = id) = none := by
    rw [List.find?_eq_none]
    intro r hr
    simpa using hnoP r hr
  constructor
  · simp [handle, withAuth, sessionTruthy, huid, handlePutDomain, hD,
          Storage.updateDomain, hfD, noChange]
  · simp [handle, withAuth, sessionTruthy, huid, handlePutPage, hP,
          Storage.updatePage, hfP, noChange]

theorem c10_witness :
    ((handle envW DB.empty { route := .putDomain 5, session := some "u", body := .obj [] }).response.status = 200 ∧
     (handle envW DB.empty { route := .putDomain 5, session := some "u", body := .obj [] }).response.body = none ∧
     (handle envW DB.empty { route := .putDomain 5, session := some "u", body := .obj [] }).db = DB.empty) ∧
    ((handle envW DB.empty { route := .putPage 5, session := some "u", body := .obj [] }).response.status = 200 ∧
     (handle envW DB.empty { route := .putPage 5, session := some "u", body := .obj [] }).response.body = none ∧
     (handle envW DB.empty { route := .putPage 5, session := some "u", body := .obj [] }).db = DB.empty) :=
  c10_put_missing_id_yields_empty_200 envW DB.empty 5 "u" (.obj []) (.obj [])
    { name := none, title := none, description := none, footerDescription := none,
      contactEmail := none, contactPhone := none, contactAddress := none, isActive := none }
    { domainId := none, name := none, title := none, subtitle := none,
      sectionsJson := none, metaTitle := none, metaDescription := none,
      status := none, faqsEnabled := none }
    (by decide) rfl rfl (by simp [DB.empty]) (by simp [DB.empty])

/-- C5: POST /api/login answers 401 "Invalid credentials" exactly when no user
row has the given email or the bcrypt comparison against the first matching
row's stored hash fails; otherwise it stores that user's id in the session and
answers success with the user's id, email, firstName and lastName.  Nothing in
storage changes either way. -/
theorem c5_login_spec (env : Env) (db : DB) (sess : Option String) (e p : String) :
    (Storage.getUserByEmail db e = none ↔ ∀ u ∈ db.users, u.email ≠ e) ∧
    (match Storage.getUserByEmail db e with
     | none =>
         handle env db { route := .postLogin, session := sess,
                         body := .obj [("email", .str e), ("password", .str p)] }
           = { response := errRes 401 "Invalid credentials", db := db,
               session := sess, calls := 1 }
     | some u =>
         if env.bcryptCompare p u.password then
           handle env db { route := .postLogin, session := sess,
                           body := .obj [("email", .str e), ("password", .str p)] }
             = { response := { status := 200,
                               body := some (.obj [("success", .bool true),
                                 ("user", .obj [("id", .str u.id), ("email", .str u.email),
                                                ("firstName", jstr u.firstName),
                                                ("lastName", jstr u.lastName)])]) },
                 db := db, session := some u.id, calls := 1 }
         else
           handle env db { route := .postLogin, session := sess,
                           body := .obj [("email", .str e), ("password", .str p)] }
             = { response := errRes 401 "Invalid credentials", db := db,
                 session := sess, calls := 1 }) := by
  constructor
  · unfold Storage.getUserByEmail
    rw [List.find?_eq_none]
    constructor
    · intro h u hu
      simpa using h u hu
    · intro h u hu
      simpa using h u hu
  · cases hu : Storage.getUserByEmail db e with
    | none =>
      simp [handle, handleLogin, loginUser, hu, noChange, Json.getField,
            Json.asStr, List.lookup]
    | some u =>
      by_cases hc : env.bcryptCompare p u.password <;>
        simp [handle, handleLogin, loginUser, hu, hc, noChange, Json.getField,
              Json.asStr, List.lookup]

/-- C8: when POST /api/users succeeds with 201, the stored row's password is
`bcrypt.hash` of the submitted password — never the plaintext, whenever the
hash differs from its input — and the 201 response body carries no password
field. -/
theorem c8_create_user_password_hashed (env : Env) (db : DB) (uid : String)
    (body : Json) (u : InsertUser) (huid : uid ≠ "")
    (hparse : parseInsertUser body = some u)
    (h201 : (handle env db { route := .postUsers, session := some uid, body := body }).response.status = 201) :
    (handle env db { route := .postUsers, session := some uid, body := body }).db.users
      = db.users ++ [{ id := env.freshUuid, email := u.email,
                       password := env.bcryptHash u.password,
                       firstName := u.firstName, lastName := u.lastName,
                       profileImageUrl := u.profileImageUrl,
                       role := some (u.role.getD "admin"),
                       isActive := some (u.isActive.getD true),
                       createdAt := env.now, updatedAt := env.now }] ∧
    ((handle env db { route := .postUsers, session := some uid, body := body }).response.body.bind
        (fun b => b.getField "password")) = none ∧
    (env.bcryptHash u.password ≠ u.password →
      ∀ r ∈ (handle env db { route := .postUsers, session := some uid, body := body }).db.users,
        r ∉ db.users → r.password ≠ u.password) := by
  have hs : sessionTruthy (some uid) = true := by
    simp [sessionTruthy, huid]
  simp only [handle, withAuth, hs, if_true, handlePostUsers, hparse] at h201 ⊢
  cases hcu : Storage.createUser db { u with password := env.bcryptHash u.password } env with
  | error e =>
    rw [hcu] at h201
    simp [noChange, errRes] at h201
  | ok pair =>
    obtain ⟨row, db'⟩ := pair
    simp only [hcu] at h201 ⊢
    unfold Storage.createUser at hcu
    split at hcu
    · exact absurd hcu (by simp)
    · split at hcu
      · exact absurd hcu (by simp)
      · cases hcu
        refine ⟨rfl, ?_, ?_⟩
        · simp [userToJsonNoPassword, Json.getField, List.lookup]
        · intro hne r hr hnotold
          simp only [List.mem_append, List.mem_singleton] at hr
          rcases hr with hold | hnew
          · exact absurd hold hnotold
          · subst hnew
            simpa using hne

theorem c8_witness :
    (handle envW DB.empty
        { route := .postUsers, session := some "u",
          body := .obj [("email", .str "new@user.io"), ("password", .str "hunter2")] }).db.users
      = DB.empty.users ++
          [{ id := envW.freshUuid, email := "new@user.io",
             password := envW.bcryptHash "hunter2", firstName := none, lastName := none,
             profileImageUrl := none, role := some "admin", isActive := some true,
             createdAt := envW.now, updatedAt := envW.now }] :=
  (c8_create_user_password_hashed envW DB.empty "u"
    (.obj [("email", .str "new@user.io"), ("password", .str "hunter2")])
    { email := "new@user.io", password := "hunter2", firstName := none,
      lastName := none, profileImageUrl := none, role := none, isActive := none }
    (by decide) rfl rfl).1

/-! ## Concrete database fixtures for closed instances. -/

def domainW : DomainRow :=
  { id := 1, name := "example.com", title := none, description := none,
    footerDescription := none, contactEmail := none, contactPhone := none,
    contactAddress := none, isActive := some true, createdAt := 0, updatedAt := 0 }

def domainW2 : DomainRow :=
  { domainW with id := 2, name := "two.example.com" }

def settingsRowW : DomainSettingsRow :=
  { id := 1, domainId := 1, visibleSections := .arr [], navigationSettings := .obj [],
    footerDescription := none, contactInfo := .obj [], createdAt := 0, updatedAt := 0 }

def seoRowW : SeoSettingsRow :=
  { id := 1, domainId := 1, websiteTitle := some "T", metaDescription := none,
    metaKeywords := none, canonicalUrl := none, googleAnalyticsId := none,
    googleAdsenseConfig := .obj [], ogTitle := none, ogDescription := none,
    ogImageUrl := none, twitterCardType := some "summary",
    createdAt := 0, updatedAt := 0 }

/-- One domain that already has a domain_settings row and a seo_settings row. -/
def dbSettings : DB :=
  { DB.empty with domains := [domainW], domainSettings := [settingsRowW],
                  seoSettings := [seoRowW], nextDomainId := 2,
                  nextDomainSettingsId := 2, nextSeoSettingsId := 2 }

/-- Two domains, no pages. -/
def dbTwoDomains : DB :=
  { DB.empty with domains := [domainW, domainW2], nextDomainId := 3 }

/-- C6: the 1:1 settings rows are never updated in place.  With a
domain_settings row and a seo_settings row already stored for domainId 1, an
authenticated PUT /api/domains/1/settings with a valid body answers 400 and
changes nothing (`upsertDomainSettings` runs `ON CONFLICT (domain_id)` with no
unique constraint on that column, which Postgres rejects on every execution),
and PUT /api/domains/1/seo answers 400 and changes nothing (the route calls
`storage.upsertSeoSettings`, a method `DatabaseStorage` does not define). -/
theorem c6_settings_upsert_always_fails :
    (handle envW dbSettings
        { route := .putDomainSettings 1, session := some "u",
          body := .obj [("visibleSections", .arr [.str "hero"])] }).response.status = 400 ∧
    (handle envW dbSettings
        { route := .putDomainSettings 1, session := some "u",
          body := .obj [("visibleSections", .arr [.str "hero"])] }).db = dbSettings ∧
    (handle envW dbSettings
        { route := .putSeoSettings 1, session := some "u",
          body := .obj [("websiteTitle", .str "New")] }).response.status = 400 ∧
    (handle envW dbSettings
        { route := .putSeoSettings 1, session := some "u",
          body := .obj [("websiteTitle", .str "New")] }).db = dbSettings :=
  ⟨rfl, rfl, rfl, rfl⟩

/-- C7 counterexample: GET /api/dashboard/stats is not a pass-through.  With
two stored domains it performs three storage-layer calls (more than two) and
its response carries the synthesized "views" field no storage row produced. -/
theorem c7_stats_exceeds_two_calls :
    (handle envW dbTwoDomains { route := .getStats, session := some "u", body := .null }).calls = 3 ∧
    ¬ ((handle envW dbTwoDomains { route := .getStats, session := some "u", body := .null }).calls ≤ 2) ∧
    (handle envW dbTwoDomains { route := .getStats, session := some "u", body := .null }).response.body.bind
        (fun b => b.getField "views") = some (.str "24.3K") :=
  ⟨rfl, by decide, rfl⟩

theorem foldl_succ_count {α : Type} (l : List α) (n : Nat) :
    l.foldl (fun acc _ => acc + 1) n = n + l.length := by
  induction l generalizing n with
  | nil => simp
  | cons x xs ih =>
    simp only [List.foldl_cons, List.length_cons, ih]
    omega

/-- C7 amended: every registered route handler except GET /api/dashboard/stats
performs at most two storage-layer calls per request; the stats handler
performs one call per stored domain plus one. -/
theorem c7_handlers_at_most_two_calls (env : Env) (db : DB) (req : Request) :
    (req.route ≠ .getStats → (handle env db req).calls ≤ 2) ∧
    (req.route = .getStats → sessionTruthy req.session = true →
      (handle env db req).calls = 1 + db.domains.length) := by
  obtain ⟨route, session, body⟩ := req
  constructor
  · intro hne
    cases route
    case getStats => exact absurd rfl hne
    all_goals
      simp only [handle, withAuth, handleLogin, handleLogout, handleGetAuthUser,
        handleGetDomains, handlePostDomains, handlePutDomain, handleDeleteDomain,
        handleGetPages, handlePostPages, handlePutPage, handleDeletePage,
        handleGetDomainSettings, handlePutDomainSettings, handleGetSeoSettings,
        handlePutSeoSettings, handleGetFaqs, handlePostFaqs, handlePutFaq,
        handleDeleteFaq, handleGetUsers, handlePostUsers,
        noChange]
      (repeat' split) <;> simp [noChange]
  · intro he hs
    subst he
    simp only [handle, withAuth, hs, if_true, handleGetStats, noChange,
      Storage.getDomains]
    exact foldl_succ_count db.domains 1

theorem c7_witness :
    (handle envW dbTwoDomains { route := .getDomains, session := some "u", body := .null }).calls ≤ 2 ∧
    (handle envW dbTwoDomains { route := .getStats, session := some "u", body := .null }).calls
      = 1 + dbTwoDomains.domains.length :=
  ⟨(c7_handlers_at_most_two_calls envW dbTwoDomains
      { route := .getDomains, session := some "u", body := .null }).1 (by decide),
   (c7_handlers_at_most_two_calls envW dbTwoDomains
      { route := .getStats, session := some "u", body := .null }).2 rfl (by decide)⟩

/-- An authenticated request, as the remaining statements abbreviate it. -/
def api (env : Env) (db : DB) (uid : String) (r : Route) (body : Json) : HResult :=
  handle env db { route := r, session := some uid, body := body }

/-- C2 counterexample: a POST /api/domains whose body passes the validator but
whose insert errors in the storage layer (duplicate name, rejected by the
UNIQUE constraint) answers 400 — not 500 as the claim states. -/
theorem c2_storage_error_answers_400_not_500 :
    parseInsertDomain (.obj [("name", .str "example.com")])
      = some { name := "example.com", title := none, description := none,
               footerDescription := none, contactEmail := none, contactPhone := none,
               contactAddress := none, isActive := none } ∧
    Storage.createDomain dbSettings
        { name := "example.com", title := none, description := none,
          footerDescription := none, contactEmail := none, contactPhone := none,
          contactAddress := none, isActive := none } envW.now
      = .error .uniqueViolation ∧
    (api envW dbSettings "u" .postDomains (.obj [("name", .str "example.com")])).response.status = 400 ∧
    (api envW dbSettings "u" .postDomains (.obj [("name", .str "example.com")])).response.status ≠ 500 :=
  ⟨rfl, rfl, rfl, by decide⟩

/-- C2 amended: on every authenticated mutation endpoint, a body that fails
the schema-derived validator answers 400 with the database unchanged, and a
validated body whose storage call errors also answers 400 with the database
unchanged — each handler's single catch maps storage errors to 400, never 500
(and the two settings PUTs answer 400 unconditionally, see C6). -/
theorem c2_mutation_errors_all_400 (env : Env) (db : DB) (uid : String)
    (body : Json) (huid : uid ≠ "") :
    (parseInsertDomain body = none →
      (api env db uid .postDomains body).response.status = 400 ∧
      (api env db uid .postDomains body).db = db) ∧
    (∀ d e, parseInsertDomain body = some d →
      Storage.createDomain db d env.now = .error e →
      (api env db uid .postDomains body).response.status = 400 ∧
      (api env db uid .postDomains body).db = db) ∧
    (∀ id, parseDomainPatch body = none →
      (api env db uid (.putDomain id) body).response.status = 400 ∧
      (api env db uid (.putDomain id) body).db = db) ∧
    (∀ id p e, parseDomainPatch body = some p →
      Storage.updateDomain db id p env.now = .error e →
      (api env db uid (.putDomain id) body).response.status = 400 ∧
      (api env db uid (.putDomain id) body).db = db) ∧
    (∀ d : Nat, parseInsertPage (body.setField "domainId" (.num d)) = none →
      (api env db uid (.postPages d) body).response.status = 400 ∧
      (api env db uid (.postPages d) body).db = db) ∧
    (∀ (d : Nat) pg e, parseInsertPage (body.setField "domainId" (.num d)) = some pg →
      Storage.createPage db pg env.now = .error e →
      (api env db uid (.postPages d) body).response.status = 400 ∧
      (api env db uid (.postPages d) body).db = db) ∧
    (∀ id, parsePagePatch body = none →
      (api env db uid (.putPage id) body).response.status = 400 ∧
      (api env db uid (.putPage id) body).db = db) ∧
    (∀ id p e, parsePagePatch body = some p →
      Storage.updatePage db id p env.now = .error e →
      (api env db uid (.putPage id) body).response.status = 400 ∧
      (api env db uid (.putPage id) body).db = db) ∧
    (parseInsertUser body = none →
      (api env db uid .postUsers body).response.status = 400 ∧
      (api env db uid .postUsers body).db = db) ∧
    (∀ u e, parseInsertUser body = some u →
      Storage.createUser db { u with password := env.bcryptHash u.password } env = .error e →
      (api env db uid .postUsers body).response.status = 400 ∧
      (api env db uid .postUsers body).db = db) ∧
    (∀ d, (api env db uid (.putDomainSettings d) body).response.status = 400 ∧
      (api env db uid (.putDomainSettings d) body).db = db) ∧
    (∀ d, (api env db uid (.putSeoSettings d) body).response.status = 400 ∧
      (api env db uid (.putSeoSettings d) body).db = db) := by
  have hs : sessionTruthy (some uid) = true := by
    simp [sessionTruthy, huid]
  refine ⟨?_, ?_, ?_, ?_, ?_, ?_, ?_, ?_, ?_, ?_, ?_, ?_⟩
  · intro hp
    simp [api, handle, withAuth, hs, handlePostDomains, hp, noChange, errRes]
  · intro d e hp he
    simp [api, handle, withAuth, hs, handlePostDomains, hp, he, noChange, errRes]
  · intro id hp
    simp [api, handle, withAuth, hs, handlePutDomain, hp, noChange, errRes]
  · intro id p e hp he
    simp [api, handle, withAuth, hs, handlePutDomain, hp, he, noChange, errRes]
  · intro d hp
    simp [api, handle, withAuth, hs, handlePostPages, hp, noChange, errRes]
  · intro d pg e hp he
    simp [api, handle, withAuth, hs, handlePostPages, hp, he, noChange, errRes]
  · intro id hp
    simp [api, handle, withAuth, hs, handlePutPage, hp, noChange, errRes]
  · intro id p e hp he
    simp [api, handle, withAuth, hs, handlePutPage, hp, he, noChange, errRes]
  · intro hp
    simp [api, handle, withAuth, hs, handlePostUsers, hp, noChange, errRes]
  · intro u e hp he
    simp [api, handle, withAuth, hs, handlePostUsers, hp, he, noChange, errRes]
  · intro d
    cases hp : parseInsertDomainSettings (body.setField "domainId" (.num d)) <;>
      simp [api, handle, withAuth, hs, handlePutDomainSettings, hp,
            Storage.upsertDomainSettings, noChange, errRes]
  · intro d
    cases hp : parseInsertSeoSettings (body.setField "domainId" (.num d)) <;>
      simp [api, handle, withAuth, hs, handlePutSeoSettings, hp, noChange, errRes]

theorem c2_witness :
    (api envW dbSettings "u" (.putDomainSettings 1) (.obj [])).response.status = 400 ∧
    (api envW dbSettings "u" (.putDomainSettings 1) (.obj [])).db = dbSettings :=
  (c2_mutation_errors_all_400 envW dbSettings "u" (.obj []) (by decide)).2.2.2.2.2.2.2.2.2.2.1 1

def pageW : PageRow :=
  { id := 1, domainId := 1, name := "home", title := none, subtitle := none,
    sectionsJson := .obj [], metaTitle := none, metaDescription := none,
    status := some "draft", faqsEnabled := some false,
    createdAt := 0, updatedAt := 0 }

/-- Domain 1 owning page 1. -/
def dbDomainWithPage : DB :=
  { DB.empty with domains := [domainW], pages := [pageW],
                  nextDomainId := 2, nextPageId := 2 }

/-- C3 counterexample: deleting a domain does not cascade to its pages.  With
domain 1 owning page 1, an authenticated DELETE /api/domains/1 does not reach
204: the pages.domain_id foreign key (no ON DELETE action) rejects the delete,
the handler answers 400, and both the domain and its page remain stored. -/
theorem c3_delete_with_pages_rejected :
    (api envW dbDomainWithPage "u" (.deleteDomain 1) .null).response.status = 400 ∧
    (api envW dbDomainWithPage "u" (.deleteDomain 1) .null).response.status ≠ 204 ∧
    (api envW dbDomainWithPage "u" (.deleteDomain 1) .null).db = dbDomainWithPage :=
  ⟨rfl, by decide, rfl⟩

/-- C3 amended: in a foreign-key-consistent state, when an authenticated
DELETE /api/domains/:id answers 204 the pages table is untouched and no page
row with that domainId existed or remains — vacuously, because a delete of a
domain that still owns pages is rejected with 400 by the foreign key and
changes nothing; there is no cascade. -/
theorem c3_delete_domain_204_means_no_pages (env : Env) (db : DB) (d : Nat)
    (uid : String) (body : Json) (huid : uid ≠ "")
    (hfk : ∀ p ∈ db.pages, ∃ r ∈ db.domains, r.id = p.domainId) :
    ((api env db uid (.deleteDomain d) body).response.status = 204 →
      (api env db uid (.deleteDomain d) body).db.pages = db.pages ∧
      ∀ p ∈ (api env db uid (.deleteDomain d) body).db.pages, p.domainId ≠ d) ∧
    ((∃ p ∈ db.pages, p.domainId = d) →
      (api env db uid (.deleteDomain d) body).response.status = 400 ∧
      (api env db uid (.deleteDomain d) body).db = db) := by
  have hs : sessionTruthy (some uid) = true := by
    simp [sessionTruthy, huid]
  simp only [api, handle, withAuth, hs, if_true, handleDeleteDomain]
  split
  · constructor
    · intro h204
      simp [noChange, errRes] at h204
    · intro _
      exact ⟨rfl, rfl⟩
  · rename_i db' hok
    unfold Storage.deleteDomain at hok
    split at hok
    · split at hok
      · exact absurd hok (by simp)
      · rename_i href
        cases hok
        simp only [Bool.or_eq_true, List.any_eq_true, decide_eq_true_eq, not_or,
                   not_exists, not_and] at href
        constructor
        · intro _
          refine ⟨rfl, ?_⟩
          intro p hp
          exact href.1.1 p hp
        · rintro ⟨p, hp, hpd⟩
          exact absurd hpd (href.1.1 p hp)
    · rename_i hex
      cases hok
      simp only [List.any_eq_true, decide_eq_true_eq, not_exists, not_and] at hex
      constructor
      · intro _
        refine ⟨rfl, ?_⟩
        intro p hp hpd
        obtain ⟨r, hr, hrid⟩ := hfk p hp
        exact hex r hr (hrid.trans hpd)
      · rintro ⟨p, hp, hpd⟩
        obtain ⟨r, hr, hrid⟩ := hfk p hp
        exact absurd (hrid.trans hpd) (hex r hr)

theorem c3_witness :
    (api envW dbDomainWithPage "u" (.deleteDomain 1) .null).response.status = 400 ∧
    (api envW dbDomainWithPage "u" (.deleteDomain 1) .null).db = dbDomainWithPage :=
  (c3_delete_domain_204_means_no_pages envW dbDomainWithPage 1 "u" .null (by decide)
      (by intro p hp
          refine ⟨domainW, by simp [dbDomainWithPage], ?_⟩
          simp [dbDomainWithPage] at hp
          simp [hp, domainW, pageW])).2
    ⟨pageW, by simp [dbDomainWithPage], rfl⟩
